import Mathlib

/-!
Verification of the THC (Total Hemocyte Count) conversion pipeline from
`src/app.py`: the concentration calculator `calculate_thc`, the status
classifier `get_recommendation`, and the plain-text export record
`results_text`.  Python floats are modelled as exact rationals; decimal
literals in the source become the corresponding exact `Rat` values.
-/

namespace THCApp

/-- Embeds `calculate_thc(count, dilution_factor=1)` from `src/app.py`
(lines 78-86): `thc_per_ul = count * dilution_factor * 71.42857142857`,
`thc_per_ml = thc_per_ul * 1000`, returning the pair.  The Python default
argument value `1` is modelled by `calculate_thc_default`.  The Python body
performs no input validation of any kind. -/
def calculate_thc (count : ℚ) (dilution_factor : ℚ) : ℚ × ℚ :=
  let thc_per_ul := count * dilution_factor * 71.42857142857
  let thc_per_ml := thc_per_ul * 1000
  (thc_per_ul, thc_per_ml)

/-- Calling `calculate_thc(count)` with the dilution factor omitted: Python
fills in the default value `1` from the signature `def calculate_thc(count,
dilution_factor=1)`. -/
def calculate_thc_default (count : ℚ) : ℚ × ℚ :=
  calculate_thc count 1

/-- The static guidance record returned by `get_recommendation` alongside the
category label: the Python dict with keys range, status, water, pond,
feeding, in that order. -/
structure Guidance where
  range : String
  status : String
  water : String
  pond : String
  feeding : String
deriving DecidableEq

/-- The dict returned in the `thc_value < 1.0e6` branch of
`get_recommendation` (src/app.py lines 90-97). -/
def lowGuidance : Guidance :=
  { range := "<1.0×10⁶ cells/mL"
    status := "🔴 LOW IMMUNITY"
    water := "Monitor parameters that stress shrimp, especially Vibrio counts, ammonia and nitrites."
    pond := "Central drain flushing and disinfectant application advised."
    feeding := "Immune stimulant feed coating at a minimum rate of 50%." }

/-- The dict returned in the `thc_value <= 1.0e7` branch of
`get_recommendation` (src/app.py lines 98-105). -/
def mediumGuidance : Guidance :=
  { range := "1.0×10⁶ - 1.0×10⁷ cells/mL"
    status := "🟡 MODERATE IMMUNITY"
    water := "Monitor parameters that stress shrimp, especially Vibrio counts, ammonia and nitrites."
    pond := "Central drain flushing and disinfectant application advised."
    feeding := "Immune-enhance feed inclusion in the range of 25 to 50%." }

/-- The dict returned in the final `else` branch of `get_recommendation`
(src/app.py lines 106-113). -/
def highGuidance : Guidance :=
  { range := ">1.0×10⁷ cells/mL"
    status := "🟢 GOOD IMMUNITY"
    water := "Maintain regular water monitoring."
    pond := "Continue with current management."
    feeding := "Continue with existing feeding unless unstable weather is forecasted or disease season is starting." }

/-- Embeds `get_recommendation(thc_value)` from `src/app.py` (lines 89-113):
`if thc_value < 1.0e6` returns the pair ("low", low dict), `elif thc_value <=
1.0e7` returns ("medium", medium dict), `else` returns ("high", high dict). -/
def get_recommendation (thc_value : ℚ) : String × Guidance :=
  if thc_value < 1.0e6 then ("low", lowGuidance)
  else if thc_value ≤ 1.0e7 then ("medium", mediumGuidance)
  else ("high", highGuidance)

/-- The spec's StatusCategory data type: one of low, medium, high. -/
inductive StatusCategory
  | low
  | medium
  | high
deriving DecidableEq

/-- Membership of a concentration value in the interval the spec's threshold
table assigns to each category: low on `[0, 1.0e6)`, medium on
`[1.0e6, 1.0e7]`, high on `(1.0e7, +∞)`. -/
def inIntervalB : StatusCategory → ℚ → Bool
  | .low, v => decide (0 ≤ v ∧ v < 1.0e6)
  | .medium, v => decide (1.0e6 ≤ v ∧ v ≤ 1.0e7)
  | .high, v => decide (1.0e7 < v)

/-- The label string `get_recommendation` uses for each category. -/
def categoryLabel : StatusCategory → String
  | .low => "low"
  | .medium => "medium"
  | .high => "high"

/-- Rank of a category label under the ordering low < medium < high, for the
monotonicity statement. -/
def categoryRank (s : String) : ℕ :=
  if s = "low" then 0 else if s = "medium" then 1 else 2

end THCApp

namespace THCApp

/-- Round a rational to the nearest integer, ties to even — how Python's
fixed-precision float formatting rounds the digit string. -/
def rne (q : ℚ) : ℤ :=
  let f := q.floor
  let frac := q - f
  if frac < 1/2 then f
  else if 1/2 < frac then f + 1
  else if f % 2 = 0 then f else f + 1

/-- The floor of the base-10 logarithm of a positive rational: the exponent
Python's `e`-format places after the `e`. -/
def floorLog10 (q : ℚ) : ℤ :=
  if 1 ≤ q then (Nat.log 10 q.floor.toNat : ℤ)
  else -((Nat.log 10 ((1/q).ceil.toNat - 1) : ℤ) + 1)

/-- A natural number printed with at least two digits, zero-padded — how
Python pads the exponent field of `e`-format. -/
def pad2 (n : ℕ) : String :=
  if n < 10 then "0" ++ toString n else toString n

/-- Models the Python format specifier `:.2e` applied to a (here exact
rational) float value: scientific notation with one digit before the point,
two digits after it, and a signed two-digit exponent, e.g. `2.00e+06`. -/
def fmt2e (q : ℚ) : String :=
  if q = 0 then "0.00e+00"
  else
    let sign := if q < 0 then "-" else ""
    let a := |q|
    let e0 := floorLog10 a
    let m0 := rne (a * 100 / (10 : ℚ) ^ e0)
    let m := if m0 = 1000 then (100 : ℤ) else m0
    let e := if m0 = 1000 then e0 + 1 else e0
    let d := m.toNat
    sign ++ toString (d / 100) ++ "." ++ pad2 (d % 100) ++ "e" ++
      (if e < 0 then "-" else "+") ++ pad2 e.natAbs

/-- Embeds the `results_text` f-string from `src/app.py` (lines 257-275),
chunked exactly as the f-string interleaves literal text with interpolated
values: it opens with a newline (the f-string starts `f"""` followed by a
line break) and closes with a newline and the twelve spaces that indent the
closing `"""`.  `date` stands for the runtime timestamp string
`pd.Timestamp.now().strftime(...)`; `dilution_factor` and `total_hemocytes`
are the ints interpolated with `{}`; the two concentrations are interpolated
with the `:.2e` format, modelled by `fmt2e`. -/
def results_text (date : String) (dilution_factor : ℕ) (total_hemocytes : ℕ)
    (thc_per_ul thc_per_ml : ℚ) (rec : Guidance) : String :=
  "\nHEMOCYTE COUNT ANALYSIS RESULTS\n================================\nAnalysis Date: " ++ date ++
    "\nDilution Factor: " ++ toString dilution_factor ++
    "x\n\nCOUNTS:\n- Hemocytes Detected: " ++ toString total_hemocytes ++
    "\n- THC (cells/μL): " ++ fmt2e thc_per_ul ++
    "\n- THC (cells/mL): " ++ fmt2e thc_per_ml ++
    "\n\nSTATUS: " ++ rec.status ++
    "\nTHC Range: " ++ rec.range ++
    "\n\nRECOMMENDATIONS:\nWater Management: " ++ rec.water ++
    "\nPond Bottom Management: " ++ rec.pond ++
    "\nFeeding Management: " ++ rec.feeding ++
    "\n            "

/-- The export record exactly as the spec's textual report template writes
it, line by line: title line, separator line of 32 `=` characters, then the
fields in the template's order, ending with the feeding-guidance line. -/
def specExportRecord (date : String) (dilution_factor : ℕ) (total_hemocytes : ℕ)
    (thc_per_ul thc_per_ml : ℚ) (rec : Guidance) : String :=
  "HEMOCYTE COUNT ANALYSIS RESULTS\n" ++
    "================================\n" ++
    "Analysis Date: " ++ date ++ "\n" ++
    "Dilution Factor: " ++ toString dilution_factor ++ "x\n" ++
    "\n" ++
    "COUNTS:\n" ++
    "- Hemocytes Detected: " ++ toString total_hemocytes ++ "\n" ++
    "- THC (cells/μL): " ++ fmt2e thc_per_ul ++ "\n" ++
    "- THC (cells/mL): " ++ fmt2e thc_per_ml ++ "\n" ++
    "\n" ++
    "STATUS: " ++ rec.status ++ "\n" ++
    "THC Range: " ++ rec.range ++ "\n" ++
    "\n" ++
    "RECOMMENDATIONS:\n" ++
    "Water Management: " ++ rec.water ++ "\n" ++
    "Pond Bottom Management: " ++ rec.pond ++ "\n" ++
    "Feeding Management: " ++ rec.feeding

end THCApp

namespace THCApp

/-- Claim C1: for every non-negative integer count and positive dilution
factor, `calculate_thc` returns the pair
`(count * dilution_factor * 71.42857142857,
count * dilution_factor * 71.42857142857 * 1000)` — cells per microliter via
the chamber constant 71.42857142857, and cells per milliliter equal to that
times 1000. -/
theorem calculate_thc_formula (count : ℕ) (d : ℚ) (hd : 0 < d) :
    calculate_thc count d =
      ((count : ℚ) * d * 71.42857142857, (count : ℚ) * d * 71.42857142857 * 1000) :=
  rfl

/-- Concrete instance of `calculate_thc_formula` at count 1, dilution 1. -/
theorem calculate_thc_formula_witness :
    0 < (1 : ℚ) ∧ calculate_thc (1 : ℕ) 1 =
      (((1 : ℕ) : ℚ) * 1 * 71.42857142857, ((1 : ℕ) : ℚ) * 1 * 71.42857142857 * 1000) :=
  ⟨by norm_num, calculate_thc_formula 1 1 (by norm_num)⟩

/-- Claim C2: on non-negative inputs, `get_recommendation` classifies
`[0, 1.0e6)` as "low", `[1.0e6, 1.0e7]` as "medium" (both endpoints
inclusive), and `(1.0e7, +∞)` as "high". -/
theorem get_recommendation_boundaries (v : ℚ) (hv : 0 ≤ v) :
    (v < 1.0e6 → (get_recommendation v).1 = "low") ∧
    (1.0e6 ≤ v → v ≤ 1.0e7 → (get_recommendation v).1 = "medium") ∧
    (1.0e7 < v → (get_recommendation v).1 = "high") := by
  unfold get_recommendation
  refine ⟨fun h => ?_, fun h1 h2 => ?_, fun h => ?_⟩ <;>
    split_ifs with h3 h4 <;> first | rfl | linarith

/-- Concrete instance of `get_recommendation_boundaries` at the boundary
value 1.0e6, which classifies as "medium". -/
theorem get_recommendation_boundaries_witness :
    0 ≤ (1.0e6 : ℚ) ∧
      (((1.0e6 : ℚ) < 1.0e6 → (get_recommendation 1.0e6).1 = "low") ∧
       ((1.0e6 : ℚ) ≤ 1.0e6 → (1.0e6 : ℚ) ≤ 1.0e7 → (get_recommendation 1.0e6).1 = "medium") ∧
       ((1.0e7 : ℚ) < 1.0e6 → (get_recommendation 1.0e6).1 = "high")) :=
  ⟨by norm_num, get_recommendation_boundaries 1.0e6 (by norm_num)⟩

end THCApp

namespace THCApp

/-- Claim C3 counterexample: calling `calculate_thc` with the negative count
-1 does not fail — it evaluates the formula and returns the numeric pair
(-71.42857142857, -71428.57142857). -/
theorem calculate_thc_negative_count_returns :
    calculate_thc (-1) 1 = (-71.42857142857, -71428.57142857) := by
  norm_num [calculate_thc]

/-- Claim C3 (amended): `calculate_thc` performs no input validation — for
every count and dilution factor, including negative counts and non-positive
dilution factors, it evaluates the formula and returns the numeric pair
`(count * d * 71.42857142857, count * d * 71.42857142857 * 1000)`; no error
path exists. -/
theorem calculate_thc_no_validation (count d : ℚ) (h : count < 0 ∨ d ≤ 0) :
    calculate_thc count d =
      (count * d * 71.42857142857, count * d * 71.42857142857 * 1000) :=
  rfl

/-- Concrete instance of `calculate_thc_no_validation` at count -1,
dilution 1. -/
theorem calculate_thc_no_validation_witness :
    ((-1 : ℚ) < 0 ∨ (1 : ℚ) ≤ 0) ∧
      calculate_thc (-1) 1 =
        ((-1 : ℚ) * 1 * 71.42857142857, (-1 : ℚ) * 1 * 71.42857142857 * 1000) :=
  ⟨Or.inl (by norm_num), calculate_thc_no_validation (-1) 1 (Or.inl (by norm_num))⟩

/-- Claim C4 counterexample: calling `get_recommendation` with the negative
concentration -1 does not fail — it returns the category "low" with the low
guidance record. -/
theorem get_recommendation_negative_returns :
    get_recommendation (-1) = ("low", lowGuidance) := by
  norm_num [get_recommendation]

/-- Claim C4 (amended): `get_recommendation` performs no input validation —
for every negative concentration it takes the first branch (`thc_value <
1.0e6`) and returns ("low", low guidance); it is a deterministic total
function over all of ℚ, not just `[0, +∞)`. -/
theorem get_recommendation_negative_low (v : ℚ) (hv : v < 0) :
    get_recommendation v = ("low", lowGuidance) := by
  unfold get_recommendation
  rw [if_pos (lt_of_lt_of_le hv (by norm_num))]

/-- Concrete instance of `get_recommendation_negative_low` at -1. -/
theorem get_recommendation_negative_low_witness :
    (-1 : ℚ) < 0 ∧ get_recommendation (-1) = ("low", lowGuidance) :=
  ⟨by norm_num, get_recommendation_negative_low (-1) (by norm_num)⟩

/-- Claim C5: for every concentration in `[0, +∞)` exactly one category's
interval matches — the intervals `[0, 1.0e6)`, `[1.0e6, 1.0e7]`,
`(1.0e7, +∞)` have no gap and no overlap — and `get_recommendation` returns
the label of that category. -/
theorem get_recommendation_exactly_one (v : ℚ) (hv : 0 ≤ v) :
    ∃! c : StatusCategory,
      inIntervalB c v = true ∧ (get_recommendation v).1 = categoryLabel c := by
  unfold get_recommendation
  by_cases h1 : v < 1.0e6
  · refine ⟨.low, ⟨by simp only [inIntervalB, decide_eq_true_eq]; exact ⟨hv, h1⟩,
      by simp [h1, categoryLabel]⟩, ?_⟩
    rintro (_ | _ | _) ⟨hc, _⟩ <;> simp_all [inIntervalB, categoryLabel] <;> linarith
  · by_cases h2 : v ≤ 1.0e7
    · refine ⟨.medium, ⟨by simp only [inIntervalB, decide_eq_true_eq]; exact ⟨le_of_not_lt h1, h2⟩,
        by simp [h1, h2, categoryLabel]⟩, ?_⟩
      rintro (_ | _ | _) ⟨hc, _⟩ <;> simp_all [inIntervalB, categoryLabel] <;> linarith
    · refine ⟨.high, ⟨by simp only [inIntervalB, decide_eq_true_eq]; exact lt_of_not_le h2,
        by simp [h1, h2, categoryLabel]⟩, ?_⟩
      rintro (_ | _ | _) ⟨hc, _⟩ <;> simp_all [inIntervalB, categoryLabel] <;> linarith

/-- Concrete instance of `get_recommendation_exactly_one` at the boundary
value 1.0e6. -/
theorem get_recommendation_exactly_one_witness :
    0 ≤ (1.0e6 : ℚ) ∧
      ∃! c : StatusCategory,
        inIntervalB c 1.0e6 = true ∧ (get_recommendation 1.0e6).1 = categoryLabel c :=
  ⟨by norm_num, get_recommendation_exactly_one 1.0e6 (by norm_num)⟩

/-- Claim C6: the two components of `calculate_thc`'s result satisfy exactly
`cells_per_milliliter = cells_per_microliter * 1000` for every non-negative
integer count and positive dilution factor. -/
theorem calculate_thc_ml_eq_ul_mul_1000 (count : ℕ) (d : ℚ) (hd : 0 < d) :
    (calculate_thc count d).2 = (calculate_thc count d).1 * 1000 :=
  rfl

/-- Concrete instance of `calculate_thc_ml_eq_ul_mul_1000` at count 14,
dilution 2. -/
theorem calculate_thc_ml_eq_ul_mul_1000_witness :
    0 < (2 : ℚ) ∧ (calculate_thc (14 : ℕ) 2).2 = (calculate_thc (14 : ℕ) 2).1 * 1000 :=
  ⟨by norm_num, calculate_thc_ml_eq_ul_mul_1000 14 2 (by norm_num)⟩

end THCApp

namespace THCApp

/-- Claim C7 counterexample: the export record does not start with the line
"HEMOCYTE COUNT ANALYSIS RESULTS" — its first character is the newline the
f-string opens with (here at a concrete instantiation with empty timestamp
and guidance strings, dilution 1, count 0, zero concentrations). -/
theorem results_text_not_title_first :
    (results_text "" 1 0 0 0 ⟨"", "", "", "", ""⟩).data.take 31 ≠
      ("HEMOCYTE COUNT ANALYSIS RESULTS" : String).data := by
  decide

/-- Claim C7 (amended): the export record consists of a leading newline,
then exactly the spec's report template — title line, `=` separator line,
analysis timestamp, dilution factor, count, both concentration values in
scientific notation with 2 decimals, status label, range label, and the
three guidance strings, in the template's field order with its labels — and
then a trailing newline and twelve spaces of indentation. -/
theorem results_text_matches_template (date : String) (df n : ℕ) (ul ml : ℚ)
    (rec : Guidance) :
    results_text date df n ul ml rec =
      "\n" ++ specExportRecord date df n ul ml rec ++ "\n            " := by
  unfold results_text specExportRecord
  rw [show ("\nHEMOCYTE COUNT ANALYSIS RESULTS\n================================\nAnalysis Date: " : String) =
      "\n" ++ ("HEMOCYTE COUNT ANALYSIS RESULTS\n" ++ "================================\n" ++ "Analysis Date: ")
      from rfl]
  rw [show ("\nDilution Factor: " : String) = "\n" ++ "Dilution Factor: " from rfl]
  rw [show ("x\n\nCOUNTS:\n- Hemocytes Detected: " : String) =
      "x\n" ++ "\n" ++ "COUNTS:\n" ++ "- Hemocytes Detected: " from rfl]
  rw [show ("\n- THC (cells/μL): " : String) = "\n" ++ "- THC (cells/μL): " from rfl]
  rw [show ("\n- THC (cells/mL): " : String) = "\n" ++ "- THC (cells/mL): " from rfl]
  rw [show ("\n\nSTATUS: " : String) = "\n" ++ "\n" ++ "STATUS: " from rfl]
  rw [show ("\nTHC Range: " : String) = "\n" ++ "THC Range: " from rfl]
  rw [show ("\n\nRECOMMENDATIONS:\nWater Management: " : String) =
      "\n" ++ "\n" ++ "RECOMMENDATIONS:\n" ++ "Water Management: " from rfl]
  rw [show ("\nPond Bottom Management: " : String) = "\n" ++ "Pond Bottom Management: " from rfl]
  rw [show ("\nFeeding Management: " : String) = "\n" ++ "Feeding Management: " from rfl]
  simp only [String.append_assoc]

/-- Claim C8: `calculate_thc` is deterministic — two calls on equal inputs
return identical results. -/
theorem calculate_thc_deterministic (c₁ d₁ c₂ d₂ : ℚ) (hc : c₁ = c₂) (hd : d₁ = d₂) :
    calculate_thc c₁ d₁ = calculate_thc c₂ d₂ := by
  rw [hc, hd]

/-- Concrete instance of `calculate_thc_deterministic` at count 14,
dilution 2. -/
theorem calculate_thc_deterministic_witness :
    (14 : ℚ) = 14 ∧ (2 : ℚ) = 2 ∧ calculate_thc 14 2 = calculate_thc 14 2 :=
  ⟨rfl, rfl, calculate_thc_deterministic 14 2 14 2 rfl rfl⟩

/-- Claim C9: calling `calculate_thc` with the dilution factor omitted uses
the default value 1, so it agrees with `calculate_thc count 1` for every
count. -/
theorem calculate_thc_default_eq (count : ℚ) :
    calculate_thc_default count = calculate_thc count 1 :=
  rfl

/-- Claim C10: the classifier is monotone — for concentrations `a ≤ b` in
`[0, +∞)`, the category of `a` is at most the category of `b` under the
ordering low < medium < high. -/
theorem get_recommendation_monotone (a b : ℚ) (ha : 0 ≤ a) (hab : a ≤ b) :
    categoryRank (get_recommendation a).1 ≤ categoryRank (get_recommendation b).1 := by
  unfold get_recommendation
  split_ifs with h1 h2 h3 h4 h5 h6 <;>
    simp [categoryRank] <;> linarith

/-- Concrete instance of `get_recommendation_monotone` at 0 and 2.0e7. -/
theorem get_recommendation_monotone_witness :
    0 ≤ (0 : ℚ) ∧ (0 : ℚ) ≤ 2.0e7 ∧
      categoryRank (get_recommendation 0).1 ≤ categoryRank (get_recommendation 2.0e7).1 :=
  ⟨le_refl 0, by norm_num, get_recommendation_monotone 0 2.0e7 (le_refl 0) (by norm_num)⟩

end THCApp
